import Mathlib

/-!
Verification of the LLM Utility Toolkit core (adapter, task functions,
HTTP endpoint wrappers, startup configuration) against its specification.

The Python source is shallowly embedded:
* JSON values (`json.loads` / `json.dumps` in the two JSON tasks) are
  modelled by the inductive family `JsonVal` together with an executable
  serializer `dumps` and an executable fuel-based parser `loads`.
  Numbers are modelled as integers (the toolkit never relies on float
  payloads), and the serializer emits the canonical compact form.
* The provider (OpenAI chat-completions) is an opaque function from a
  request to either a completion response or a raised transport error.
* Python exceptions are modelled by `PyErr`; `except json.JSONDecodeError`
  clauses catch exactly the `jsonDecode` constructor.
-/

set_option maxHeartbeats 1000000

namespace LLMToolkit

/-! ## JSON value model -/

mutual

inductive JsonVal : Type where
  | null : JsonVal
  | bool (b : Bool) : JsonVal
  | num (n : Int) : JsonVal
  | str (s : String) : JsonVal
  | arr (a : JsonArr) : JsonVal
  | obj (o : JsonObj) : JsonVal

inductive JsonArr : Type where
  | nil : JsonArr
  | cons (v : JsonVal) (tl : JsonArr) : JsonArr

inductive JsonObj : Type where
  | nil : JsonObj
  | cons (k : String) (v : JsonVal) (tl : JsonObj) : JsonObj

end

/-- The left curly brace character. -/
def lbrace : Char := Char.ofNat 123

/-- The right curly brace character. -/
def rbrace : Char := Char.ofNat 125

def isDigitC (c : Char) : Bool := 48 ≤ c.toNat && c.toNat ≤ 57

def digitVal (c : Char) : Nat := c.toNat - 48

def digitChar (d : Nat) : Char := Char.ofNat (48 + d)

/-- Fuel-indexed accumulator loop emitting the decimal digits of `n` in
front of `acc` (the fuel makes the recursion structural, so that the
kernel can evaluate serializations). -/
def serNatAux : Nat → Nat → List Char → List Char
  | 0, _, acc => acc
  | fuel + 1, n, acc =>
    if n = 0 then acc else serNatAux fuel (n / 10) (digitChar (n % 10) :: acc)

/-- Decimal serialization of a natural number (most significant digit first). -/
def serNat (n : Nat) : List Char :=
  if n = 0 then ['0'] else serNatAux n n []

/-- Decimal serialization of an integer. -/
def serInt (n : Int) : List Char :=
  if n < 0 then '-' :: serNat n.natAbs else serNat n.natAbs

/-- JSON string escaping of one character (quote and backslash). -/
def escChar (c : Char) : List Char :=
  if c = '"' ∨ c = '\\' then ['\\', c] else [c]

def escStr : List Char → List Char
  | [] => []
  | c :: cs => escChar c ++ escStr cs

/-- Serialization of a JSON string literal, including the quotes. -/
def serStr (s : String) : List Char := '"' :: (escStr s.data ++ ['"'])

mutual

/-- Compact serialization of a JSON value (models `json.dumps`). -/
def serVal : JsonVal → List Char
  | .null => "null".data
  | .bool true => "true".data
  | .bool false => "false".data
  | .num n => serInt n
  | .str s => serStr s
  | .arr .nil => ['[', ']']
  | .arr (.cons v a) => '[' :: (serVal v ++ (serAfterA a ++ [']']))
  | .obj .nil => [lbrace, rbrace]
  | .obj (.cons k v o) =>
      lbrace :: (serStr k ++ (':' :: (serVal v ++ (serAfterO o ++ [rbrace]))))

/-- Serialization of the remaining elements of a non-empty array (each
preceded by a comma); the closing bracket is emitted by `serVal`. -/
def serAfterA : JsonArr → List Char
  | .nil => []
  | .cons v a => ',' :: (serVal v ++ serAfterA a)

/-- Serialization of the remaining members of a non-empty object. -/
def serAfterO : JsonObj → List Char
  | .nil => []
  | .cons k v o => ',' :: (serStr k ++ (':' :: (serVal v ++ serAfterO o)))

end

/-- Expect a literal character sequence as a prefix of the input. -/
def expectLit : List Char → List Char → Option (List Char)
  | [], cs => some cs
  | _ :: _, [] => none
  | p :: ps, c :: cs => if c = p then expectLit ps cs else none

/-- Parse the body of a JSON string literal (after the opening quote),
returning the unescaped characters and the input after the closing quote. -/
def parseStrBody : List Char → Option (List Char × List Char)
  | [] => none
  | c :: rest =>
    if c = '"' then some ([], rest)
    else if c = '\\' then
      match rest with
      | [] => none
      | e :: rest2 =>
        if e = '"' ∨ e = '\\' then
          match parseStrBody rest2 with
          | some (s, r) => some (e :: s, r)
          | none => none
        else none
    else
      match parseStrBody rest with
      | some (s, r) => some (c :: s, r)
      | none => none

/-- Consume a maximal run of decimal digits, accumulating their value. -/
def parseDigitsAux : Nat → List Char → Nat × List Char
  | acc, [] => (acc, [])
  | acc, c :: cs =>
    if isDigitC c then parseDigitsAux (10 * acc + digitVal c) cs else (acc, c :: cs)

/-- Parse a decimal natural number (at least one digit required). -/
def parseNum : List Char → Option (Nat × List Char)
  | [] => none
  | c :: cs => if isDigitC c then some (parseDigitsAux 0 (c :: cs)) else none

mutual

/-- Fuel-indexed recursive-descent parser for one JSON value. -/
def parseVal : Nat → List Char → Option (JsonVal × List Char)
  | 0, _ => none
  | _ + 1, [] => none
  | fuel + 1, c :: cs =>
    if c = 'n' then
      match expectLit "ull".data cs with
      | some r => some (JsonVal.null, r)
      | none => none
    else if c = 't' then
      match expectLit "rue".data cs with
      | some r => some (JsonVal.bool true, r)
      | none => none
    else if c = 'f' then
      match expectLit "alse".data cs with
      | some r => some (JsonVal.bool false, r)
      | none => none
    else if c = '"' then
      match parseStrBody cs with
      | some (s, r) => some (JsonVal.str (String.mk s), r)
      | none => none
    else if c = '[' then
      match cs with
      | [] => none
      | c2 :: cs2 =>
        if c2 = ']' then some (JsonVal.arr JsonArr.nil, cs2)
        else
          match parseVal fuel (c2 :: cs2) with
          | some (v, r1) =>
            match parseAfterA fuel r1 with
            | some (a, r2) => some (JsonVal.arr (JsonArr.cons v a), r2)
            | none => none
          | none => none
    else if c = lbrace then
      match cs with
      | [] => none
      | c2 :: cs2 =>
        if c2 = rbrace then some (JsonVal.obj JsonObj.nil, cs2)
        else if c2 = '"' then
          match parseMember fuel cs2 with
          | some (k, v, r1) =>
            match parseAfterO fuel r1 with
            | some (o, r2) => some (JsonVal.obj (JsonObj.cons k v o), r2)
            | none => none
          | none => none
        else none
    else if c = '-' then
      match parseNum cs with
      | some (n, r) => some (JsonVal.num (-(n : Int)), r)
      | none => none
    else if isDigitC c then
      match parseNum (c :: cs) with
      | some (n, r) => some (JsonVal.num ((n : Int)), r)
      | none => none
    else none

/-- Parse a single object member (after its opening quote): key string
body, a colon, and a value. -/
def parseMember : Nat → List Char → Option (String × JsonVal × List Char)
  | 0, _ => none
  | fuel + 1, cs =>
    match parseStrBody cs with
    | some (k, r) =>
      match r with
      | [] => none
      | c :: r2 =>
        if c = ':' then
          match parseVal fuel r2 with
          | some (v, r3) => some (String.mk k, v, r3)
          | none => none
        else none
    | none => none

/-- Parse the remainder of an array after one element: either the closing
bracket or a comma followed by an element. -/
def parseAfterA : Nat → List Char → Option (JsonArr × List Char)
  | 0, _ => none
  | _ + 1, [] => none
  | fuel + 1, c :: cs =>
    if c = ']' then some (JsonArr.nil, cs)
    else if c = ',' then
      match parseVal fuel cs with
      | some (v, r1) =>
        match parseAfterA fuel r1 with
        | some (a, r2) => some (JsonArr.cons v a, r2)
        | none => none
      | none => none
    else none

/-- Parse the remainder of an object after one member. -/
def parseAfterO : Nat → List Char → Option (JsonObj × List Char)
  | 0, _ => none
  | _ + 1, [] => none
  | fuel + 1, c :: cs =>
    if c = rbrace then some (JsonObj.nil, cs)
    else if c = ',' then
      match cs with
      | [] => none
      | c2 :: cs2 =>
        if c2 = '"' then
          match parseMember fuel cs2 with
          | some (k, v, r1) =>
            match parseAfterO fuel r1 with
            | some (o, r2) => some (JsonObj.cons k v o, r2)
            | none => none
          | none => none
        else none
    else none

end

def isWs (c : Char) : Bool := c = ' ' || c = '\n' || c = '\t' || c = '\r'

def skipWs : List Char → List Char
  | [] => []
  | c :: cs => if isWs c then skipWs cs else c :: cs

/-- Serialization to a string (models `json.dumps`). -/
def dumps (v : JsonVal) : String := String.mk (serVal v)

/-- Parse a whole string as one JSON value (models `json.loads`): optional
surrounding whitespace, one value, nothing else. -/
def loads (s : String) : Except String JsonVal :=
  let cs := skipWs s.data
  match parseVal (cs.length + 1) cs with
  | some (v, rest) => if skipWs rest = [] then .ok v else .error "Extra data"
  | none => .error "Expecting value"

mutual

/-- Fuel needed by `parseVal` to parse the serialization of a value. -/
def sizeV : JsonVal → Nat
  | .null => 1
  | .bool _ => 1
  | .num _ => 1
  | .str _ => 1
  | .arr .nil => 1
  | .arr (.cons v a) => 1 + max (sizeV v) (sizeA a)
  | .obj .nil => 1
  | .obj (.cons _ v o) => 1 + max (1 + sizeV v) (sizeO o)

/-- Fuel needed by `parseAfterA` for the tail of an array. -/
def sizeA : JsonArr → Nat
  | .nil => 1
  | .cons v a => 1 + max (sizeV v) (sizeA a)

/-- Fuel needed by `parseAfterO` for the tail of an object. -/
def sizeO : JsonObj → Nat
  | .nil => 1
  | .cons _ v o => 1 + max (1 + sizeV v) (sizeO o)

end

/-! ## Round-trip: parsing a serialization recovers the value -/

lemma string_mk_data (s : String) : String.mk s.data = s := rfl

/-- The input does not begin with a decimal digit (so that a preceding
number token cannot absorb it). -/
def notDigitHead : List Char → Bool
  | [] => true
  | c :: _ => !(isDigitC c)

lemma digitChar_lt_ten (d : Nat) (hd : d < 10) :
    isDigitC (digitChar d) = true ∧ digitVal (digitChar d) = d := by
  interval_cases d <;> exact ⟨rfl, rfl⟩

lemma ne_of_isDigitC (c : Char) (hc : isDigitC c = true) :
    c ≠ 'n' ∧ c ≠ 't' ∧ c ≠ 'f' ∧ c ≠ '"' ∧ c ≠ '[' ∧ c ≠ lbrace ∧ c ≠ '-' := by
  refine ⟨?_, ?_, ?_, ?_, ?_, ?_, ?_⟩ <;>
    (intro h; subst h; exact absurd hc (by decide))

lemma isDigitC_props (c : Char) (h : isDigitC c = true) :
    isWs c = false ∧ c ≠ ']' := by
  constructor
  · cases hw : isWs c
    · rfl
    · exfalso
      have hw2 : c = ' ' ∨ c = '\n' ∨ c = '\t' ∨ c = '\r' := by
        simpa [isWs, or_assoc] using hw
      rcases hw2 with rfl | rfl | rfl | rfl <;> exact absurd h (by decide)
  · intro heq; subst heq; exact absurd h (by decide)

lemma parseDigitsAux_spec : ∀ (ds : List Nat) (acc : Nat) (rest : List Char),
    (∀ d ∈ ds, d < 10) → notDigitHead rest = true →
    parseDigitsAux acc (ds.map digitChar ++ rest) =
      (ds.foldl (fun a d => 10 * a + d) acc, rest)
  | [], acc, rest, _, hrest => by
    simp only [List.map_nil, List.nil_append, List.foldl_nil]
    cases rest with
    | nil => rfl
    | cons c cs =>
      have hc : isDigitC c = false := by simpa [notDigitHead] using hrest
      simp [parseDigitsAux, hc]
  | d :: ds, acc, rest, h10, hrest => by
    have hd : d < 10 := h10 d (List.mem_cons_self d ds)
    obtain ⟨hdig, hval⟩ := digitChar_lt_ten d hd
    simp only [List.map_cons, List.cons_append, List.foldl_cons]
    simp only [parseDigitsAux, hdig, if_true, hval]
    exact parseDigitsAux_spec ds (10 * acc + d) rest
      (fun e he => h10 e (List.mem_cons_of_mem d he)) hrest

lemma foldr_eq_ofDigits : ∀ l : List Nat,
    l.foldr (fun d a => 10 * a + d) 0 = Nat.ofDigits 10 l
  | [] => rfl
  | d :: l => by
    simp only [List.foldr_cons, Nat.ofDigits_cons, foldr_eq_ofDigits l, Nat.cast_id]
    omega

lemma foldl_reverse_digits (n : Nat) :
    (Nat.digits 10 n).reverse.foldl (fun a d => 10 * a + d) 0 = n := by
  rw [List.foldl_reverse]
  calc (Nat.digits 10 n).foldr (fun x y => 10 * y + x) 0
      = Nat.ofDigits 10 (Nat.digits 10 n) := foldr_eq_ofDigits _
    _ = n := Nat.ofDigits_digits 10 n

lemma serNatAux_eq : ∀ (fuel n : Nat) (acc : List Char), n ≤ fuel →
    serNatAux fuel n acc = (Nat.digits 10 n).reverse.map digitChar ++ acc
  | fuel, 0, acc, _ => by cases fuel <;> simp [serNatAux]
  | fuel + 1, n + 1, acc, h => by
    rw [serNatAux, if_neg (Nat.succ_ne_zero n)]
    rw [serNatAux_eq fuel ((n + 1) / 10) _ (by omega)]
    rw [Nat.digits_def' (by norm_num : (1:Nat) < 10) (Nat.succ_pos n)]
    simp [List.reverse_cons, List.map_append, List.append_assoc]

lemma serNat_eq (n : Nat) (hn : n ≠ 0) :
    serNat n = (Nat.digits 10 n).reverse.map digitChar := by
  rw [serNat, if_neg hn, serNatAux_eq n n [] le_rfl, List.append_nil]

lemma serNat_cons (n : Nat) : ∃ c t, serNat n = c :: t ∧ isDigitC c = true := by
  by_cases hn : n = 0
  · exact ⟨'0', [], by simp [hn, serNat], by decide⟩
  · rw [serNat_eq n hn]
    rcases h : (Nat.digits 10 n).reverse with _ | ⟨d, ds⟩
    · exact absurd (List.reverse_eq_nil_iff.mp h)
        (Nat.digits_ne_nil_iff_ne_zero.mpr hn)
    · have hmem : d ∈ (Nat.digits 10 n).reverse := by
        rw [h]; exact List.mem_cons_self d ds
      have hd : d < 10 :=
        Nat.digits_lt_base (by norm_num) (List.mem_reverse.mp hmem)
      exact ⟨digitChar d, ds.map digitChar, by simp, (digitChar_lt_ten d hd).1⟩

lemma parseNum_serNat (n : Nat) (rest : List Char)
    (hrest : notDigitHead rest = true) :
    parseNum (serNat n ++ rest) = some (n, rest) := by
  by_cases hn : n = 0
  · subst hn
    show parseNum ('0' :: rest) = some (0, rest)
    have h0 : parseDigitsAux 0 rest = (0, rest) := by
      cases rest with
      | nil => rfl
      | cons c cs =>
        have hc : isDigitC c = false := by simpa [notDigitHead] using hrest
        simp [parseDigitsAux, hc]
    simp [parseNum, parseDigitsAux, (by decide : isDigitC '0' = true),
      (by decide : digitVal '0' = 0), h0]
  · have hds : ∀ e ∈ (Nat.digits 10 n).reverse, e < 10 := fun e he =>
      Nat.digits_lt_base (by norm_num) (List.mem_reverse.mp he)
    rcases h : (Nat.digits 10 n).reverse with _ | ⟨d, ds⟩
    · exact absurd (List.reverse_eq_nil_iff.mp h)
        (Nat.digits_ne_nil_iff_ne_zero.mpr hn)
    · have hd : d < 10 := hds d (by rw [h]; exact List.mem_cons_self d ds)
      have hspec := parseDigitsAux_spec (d :: ds) 0 rest
        (by rw [← h]; exact hds) hrest
      have hfold : (d :: ds).foldl (fun a e => 10 * a + e) 0 = n := by
        rw [← h]; exact foldl_reverse_digits n
      rw [serNat_eq n hn, h]
      simp only [List.map_cons, List.cons_append, parseNum,
        (digitChar_lt_ten d hd).1, if_true]
      rw [show digitChar d :: (ds.map digitChar ++ rest) =
            (d :: ds).map digitChar ++ rest by simp]
      rw [hspec, hfold]

lemma parseStrBody_quote (rest : List Char) :
    parseStrBody ('"' :: rest) = some ([], rest) := by
  rw [parseStrBody.eq_def]
  simp

lemma parseStrBody_cons_esc (e : Char) (cs : List Char)
    (he : e = '"' ∨ e = '\\') :
    parseStrBody ('\\' :: e :: cs) =
      (match parseStrBody cs with
       | some (s, r) => some (e :: s, r)
       | none => none) := by
  rw [parseStrBody.eq_def]
  simp only []
  rw [if_neg (show ¬('\\' : Char) = '"' by decide)]
  simp [he]

lemma parseStrBody_cons_other (c : Char) (cs : List Char)
    (h1 : ¬ c = '"') (h2 : ¬ c = '\\') :
    parseStrBody (c :: cs) =
      (match parseStrBody cs with
       | some (s, r) => some (c :: s, r)
       | none => none) := by
  rw [parseStrBody.eq_def]
  simp only []
  rw [if_neg h1, if_neg h2]

lemma parseStrBody_escStr : ∀ (cs rest : List Char),
    parseStrBody (escStr cs ++ ('"' :: rest)) = some (cs, rest)
  | [], rest => by
    rw [show escStr [] ++ ('"' :: rest) = '"' :: rest from rfl]
    exact parseStrBody_quote rest
  | c :: cs, rest => by
    by_cases hc : c = '"' ∨ c = '\\'
    · rw [show escStr (c :: cs) = escChar c ++ escStr cs from rfl, escChar,
        if_pos hc]
      simp only [List.cons_append, List.append_assoc, List.nil_append]
      rw [parseStrBody_cons_esc c _ hc]
      simp only [parseStrBody_escStr cs rest]
    · have h1 : ¬ c = '"' := fun h => hc (Or.inl h)
      have h2 : ¬ c = '\\' := fun h => hc (Or.inr h)
      rw [show escStr (c :: cs) = escChar c ++ escStr cs from rfl, escChar,
        if_neg hc]
      simp only [List.cons_append, List.append_assoc, List.nil_append]
      rw [parseStrBody_cons_other c _ h1 h2]
      simp only [parseStrBody_escStr cs rest]

/-! Dispatch lemmas: one definitional unfolding of the parser per leading
character of a serialized token. -/

lemma parseVal_succ_null (f : Nat) (rest : List Char) :
    parseVal (f + 1) ('n' :: 'u' :: 'l' :: 'l' :: rest) =
      some (JsonVal.null, rest) := by rfl

lemma parseVal_succ_true (f : Nat) (rest : List Char) :
    parseVal (f + 1) ('t' :: 'r' :: 'u' :: 'e' :: rest) =
      some (JsonVal.bool true, rest) := by rfl

lemma parseVal_succ_false (f : Nat) (rest : List Char) :
    parseVal (f + 1) ('f' :: 'a' :: 'l' :: 's' :: 'e' :: rest) =
      some (JsonVal.bool false, rest) := by rfl

lemma parseVal_succ_quote (f : Nat) (cs : List Char) :
    parseVal (f + 1) ('"' :: cs) =
      (match parseStrBody cs with
       | some (s, r) => some (JsonVal.str (String.mk s), r)
       | none => none) := by rfl

lemma parseVal_succ_arr_nil (f : Nat) (rest : List Char) :
    parseVal (f + 1) ('[' :: ']' :: rest) =
      some (JsonVal.arr JsonArr.nil, rest) := by rfl

lemma parseVal_succ_arr_cons (f : Nat) (c2 : Char) (cs2 : List Char)
    (h : ¬ c2 = ']') :
    parseVal (f + 1) ('[' :: c2 :: cs2) =
      (match parseVal f (c2 :: cs2) with
       | some (v, r1) =>
         (match parseAfterA f r1 with
          | some (a, r2) => some (JsonVal.arr (JsonArr.cons v a), r2)
          | none => none)
       | none => none) := by
  show (if c2 = ']' then some (JsonVal.arr JsonArr.nil, cs2)
        else match parseVal f (c2 :: cs2) with
          | some (v, r1) =>
            (match parseAfterA f r1 with
             | some (a, r2) => some (JsonVal.arr (JsonArr.cons v a), r2)
             | none => none)
          | none => none) = _
  rw [if_neg h]

lemma parseVal_succ_obj_nil (f : Nat) (rest : List Char) :
    parseVal (f + 1) (lbrace :: rbrace :: rest) =
      some (JsonVal.obj JsonObj.nil, rest) := by rfl

lemma parseVal_succ_obj_key (f : Nat) (cs2 : List Char) :
    parseVal (f + 1) (lbrace :: '"' :: cs2) =
      (match parseMember f cs2 with
       | some (k, v, r1) =>
         (match parseAfterO f r1 with
          | some (o, r2) => some (JsonVal.obj (JsonObj.cons k v o), r2)
          | none => none)
       | none => none) := by rfl

lemma parseVal_succ_minus (f : Nat) (cs : List Char) :
    parseVal (f + 1) ('-' :: cs) =
      (match parseNum cs with
       | some (n, r) => some (JsonVal.num (-(n : Int)), r)
       | none => none) := by rfl

lemma parseVal_succ_digit (f : Nat) (c : Char) (cs : List Char)
    (hc : isDigitC c = true) :
    parseVal (f + 1) (c :: cs) =
      (match parseNum (c :: cs) with
       | some (n, r) => some (JsonVal.num ((n : Int)), r)
       | none => none) := by
  obtain ⟨h1, h2, h3, h4, h5, h6, h7⟩ := ne_of_isDigitC c hc
  simp only [parseVal, if_neg h1, if_neg h2, if_neg h3, if_neg h4, if_neg h5,
    if_neg h6, if_neg h7, if_pos hc]

lemma parseMember_succ (g : Nat) (cs : List Char) :
    parseMember (g + 1) cs =
      (match parseStrBody cs with
       | some (k, r) =>
         (match r with
          | [] => none
          | c :: r2 =>
            if c = ':' then
              (match parseVal g r2 with
               | some (v, r3) => some (String.mk k, v, r3)
               | none => none)
            else none)
       | none => none) := by rfl

lemma parseAfterA_succ_close (f : Nat) (rest : List Char) :
    parseAfterA (f + 1) (']' :: rest) = some (JsonArr.nil, rest) := by rfl

lemma parseAfterA_succ_comma (f : Nat) (cs : List Char) :
    parseAfterA (f + 1) (',' :: cs) =
      (match parseVal f cs with
       | some (v, r1) =>
         (match parseAfterA f r1 with
          | some (a, r2) => some (JsonArr.cons v a, r2)
          | none => none)
       | none => none) := by rfl

lemma parseAfterO_succ_close (f : Nat) (rest : List Char) :
    parseAfterO (f + 1) (rbrace :: rest) = some (JsonObj.nil, rest) := by rfl

lemma parseAfterO_succ_comma (f : Nat) (cs2 : List Char) :
    parseAfterO (f + 1) (',' :: '"' :: cs2) =
      (match parseMember f cs2 with
       | some (k, v, r1) =>
         (match parseAfterO f r1 with
          | some (o, r2) => some (JsonObj.cons k v o, r2)
          | none => none)
       | none => none) := by rfl

lemma parseVal_serInt (n : Int) (f : Nat) (rest : List Char)
    (hr : notDigitHead rest = true) :
    parseVal (f + 1) (serInt n ++ rest) = some (JsonVal.num n, rest) := by
  by_cases hn : n < 0
  · rw [serInt, if_pos hn, List.cons_append, parseVal_succ_minus,
      parseNum_serNat n.natAbs rest hr]
    have hcast : -((n.natAbs : Nat) : Int) = n := by omega
    show some (JsonVal.num (-((n.natAbs : Nat) : Int)), rest) =
      some (JsonVal.num n, rest)
    rw [hcast]
  · rw [serInt, if_neg hn]
    obtain ⟨c, t, hct, hc⟩ := serNat_cons n.natAbs
    rw [hct, List.cons_append, parseVal_succ_digit f c _ hc,
      ← List.cons_append, ← hct, parseNum_serNat n.natAbs rest hr]
    have hcast : ((n.natAbs : Nat) : Int) = n := by omega
    show some (JsonVal.num ((n.natAbs : Nat) : Int), rest) =
      some (JsonVal.num n, rest)
    rw [hcast]

/-- The head character of any serialized JSON value: never whitespace,
never a closing bracket. -/
lemma serVal_cons (v : JsonVal) :
    ∃ c t, serVal v = c :: t ∧ isWs c = false ∧ c ≠ ']' := by
  cases v with
  | null => exact ⟨'n', _, rfl, by decide, by decide⟩
  | bool b =>
    cases b with
    | false => exact ⟨'f', _, rfl, by decide, by decide⟩
    | true => exact ⟨'t', _, rfl, by decide, by decide⟩
  | num n =>
    by_cases hn : n < 0
    · exact ⟨'-', _, by rw [show serVal (JsonVal.num n) = serInt n from rfl,
        serInt, if_pos hn], by decide, by decide⟩
    · obtain ⟨c, t, hct, hc⟩ := serNat_cons n.natAbs
      refine ⟨c, t, ?_, (isDigitC_props c hc).1, (isDigitC_props c hc).2⟩
      rw [show serVal (JsonVal.num n) = serInt n from rfl, serInt, if_neg hn, hct]
  | str s => exact ⟨'"', _, rfl, by decide, by decide⟩
  | arr a =>
    cases a with
    | nil => exact ⟨'[', _, rfl, by decide, by decide⟩
    | cons v a => exact ⟨'[', _, rfl, by decide, by decide⟩
  | obj o =>
    cases o with
    | nil => exact ⟨lbrace, _, rfl, by decide, by decide⟩
    | cons k v o => exact ⟨lbrace, _, rfl, by decide, by decide⟩

lemma notDigitHead_serAfterA (a : JsonArr) (rest : List Char) :
    notDigitHead (serAfterA a ++ (']' :: rest)) = true := by
  cases a <;> rfl

lemma notDigitHead_serAfterO (o : JsonObj) (rest : List Char) :
    notDigitHead (serAfterO o ++ (rbrace :: rest)) = true := by
  cases o <;> rfl

mutual

theorem roundV : ∀ (v : JsonVal) (fuel : Nat) (rest : List Char),
    sizeV v ≤ fuel → notDigitHead rest = true →
    parseVal fuel (serVal v ++ rest) = some (v, rest)
  | .null, fuel, rest, hf, _ => by
    have h1 : 1 ≤ fuel := hf
    obtain ⟨f, rfl⟩ : ∃ f, fuel = f + 1 := ⟨fuel - 1, by omega⟩
    exact parseVal_succ_null f rest
  | .bool true, fuel, rest, hf, _ => by
    have h1 : 1 ≤ fuel := hf
    obtain ⟨f, rfl⟩ : ∃ f, fuel = f + 1 := ⟨fuel - 1, by omega⟩
    exact parseVal_succ_true f rest
  | .bool false, fuel, rest, hf, _ => by
    have h1 : 1 ≤ fuel := hf
    obtain ⟨f, rfl⟩ : ∃ f, fuel = f + 1 := ⟨fuel - 1, by omega⟩
    exact parseVal_succ_false f rest
  | .num n, fuel, rest, hf, hr => by
    have h1 : 1 ≤ fuel := hf
    obtain ⟨f, rfl⟩ : ∃ f, fuel = f + 1 := ⟨fuel - 1, by omega⟩
    exact parseVal_serInt n f rest hr
  | .str s, fuel, rest, hf, _ => by
    have h1 : 1 ≤ fuel := hf
    obtain ⟨f, rfl⟩ : ∃ f, fuel = f + 1 := ⟨fuel - 1, by omega⟩
    show parseVal (f + 1) (('"' :: (escStr s.data ++ ['"'])) ++ rest) =
      some (JsonVal.str s, rest)
    rw [List.cons_append, List.append_assoc, List.singleton_append,
      parseVal_succ_quote, parseStrBody_escStr s.data rest]
  | .arr .nil, fuel, rest, hf, _ => by
    have h1 : 1 ≤ fuel := hf
    obtain ⟨f, rfl⟩ : ∃ f, fuel = f + 1 := ⟨fuel - 1, by omega⟩
    exact parseVal_succ_arr_nil f rest
  | .arr (.cons v a), fuel, rest, hf, hr => by
    have h1 : 1 + max (sizeV v) (sizeA a) ≤ fuel := hf
    obtain ⟨f, rfl⟩ : ∃ f, fuel = f + 1 := ⟨fuel - 1, by omega⟩
    obtain ⟨c, t, hct, _, hcb⟩ := serVal_cons v
    show parseVal (f + 1) (('[' :: (serVal v ++ (serAfterA a ++ [']']))) ++ rest) =
      some (JsonVal.arr (JsonArr.cons v a), rest)
    rw [List.cons_append, List.append_assoc, List.append_assoc,
      List.singleton_append, hct, List.cons_append,
      parseVal_succ_arr_cons f c _ hcb, ← List.cons_append, ← hct]
    simp only [roundV v f (serAfterA a ++ (']' :: rest)) (by omega)
        (notDigitHead_serAfterA a rest),
      roundA a f rest (by omega) hr]
  | .obj .nil, fuel, rest, hf, _ => by
    have h1 : 1 ≤ fuel := hf
    obtain ⟨f, rfl⟩ : ∃ f, fuel = f + 1 := ⟨fuel - 1, by omega⟩
    exact parseVal_succ_obj_nil f rest
  | .obj (.cons k v o), fuel, rest, hf, hr => by
    have h1 : 1 + max (1 + sizeV v) (sizeO o) ≤ fuel := hf
    obtain ⟨f, rfl⟩ : ∃ f, fuel = f + 1 := ⟨fuel - 1, by omega⟩
    obtain ⟨g, rfl⟩ : ∃ g, f = g + 1 := ⟨f - 1, by omega⟩
    show parseVal (g + 1 + 1)
        ((lbrace :: (serStr k ++ (':' :: (serVal v ++ (serAfterO o ++ [rbrace]))))) ++ rest) =
      some (JsonVal.obj (JsonObj.cons k v o), rest)
    simp only [serStr, List.cons_append, List.append_assoc,
      List.singleton_append, List.nil_append]
    simp only [parseVal_succ_obj_key (g + 1), parseMember_succ g,
      parseStrBody_escStr, if_true,
      roundV v g (serAfterO o ++ (rbrace :: rest)) (by omega)
        (notDigitHead_serAfterO o rest),
      roundO o (g + 1) rest (by omega) hr, string_mk_data]

theorem roundA : ∀ (a : JsonArr) (fuel : Nat) (rest : List Char),
    sizeA a ≤ fuel → notDigitHead rest = true →
    parseAfterA fuel (serAfterA a ++ (']' :: rest)) = some (a, rest)
  | .nil, fuel, rest, hf, _ => by
    have h1 : 1 ≤ fuel := hf
    obtain ⟨f, rfl⟩ : ∃ f, fuel = f + 1 := ⟨fuel - 1, by omega⟩
    exact parseAfterA_succ_close f rest
  | .cons v a, fuel, rest, hf, hr => by
    have h1 : 1 + max (sizeV v) (sizeA a) ≤ fuel := hf
    obtain ⟨f, rfl⟩ : ∃ f, fuel = f + 1 := ⟨fuel - 1, by omega⟩
    show parseAfterA (f + 1) ((',' :: (serVal v ++ serAfterA a)) ++ (']' :: rest)) =
      some (JsonArr.cons v a, rest)
    rw [List.cons_append, List.append_assoc, parseAfterA_succ_comma]
    simp only [roundV v f (serAfterA a ++ (']' :: rest)) (by omega)
        (notDigitHead_serAfterA a rest),
      roundA a f rest (by omega) hr]

theorem roundO : ∀ (o : JsonObj) (fuel : Nat) (rest : List Char),
    sizeO o ≤ fuel → notDigitHead rest = true →
    parseAfterO fuel (serAfterO o ++ (rbrace :: rest)) = some (o, rest)
  | .nil, fuel, rest, hf, _ => by
    have h1 : 1 ≤ fuel := hf
    obtain ⟨f, rfl⟩ : ∃ f, fuel = f + 1 := ⟨fuel - 1, by omega⟩
    exact parseAfterO_succ_close f rest
  | .cons k v o, fuel, rest, hf, hr => by
    have h1 : 1 + max (1 + sizeV v) (sizeO o) ≤ fuel := hf
    obtain ⟨f, rfl⟩ : ∃ f, fuel = f + 1 := ⟨fuel - 1, by omega⟩
    obtain ⟨g, rfl⟩ : ∃ g, f = g + 1 := ⟨f - 1, by omega⟩
    show parseAfterO (g + 1 + 1)
        ((',' :: (serStr k ++ (':' :: (serVal v ++ serAfterO o)))) ++ (rbrace :: rest)) =
      some (JsonObj.cons k v o, rest)
    simp only [serStr, List.cons_append, List.append_assoc,
      List.singleton_append, List.nil_append]
    simp only [parseAfterO_succ_comma (g + 1), parseMember_succ g,
      parseStrBody_escStr, if_true,
      roundV v g (serAfterO o ++ (rbrace :: rest)) (by omega)
        (notDigitHead_serAfterO o rest),
      roundO o (g + 1) rest (by omega) hr, string_mk_data]

end

mutual

theorem sizeV_le : ∀ v : JsonVal, sizeV v ≤ (serVal v).length
  | .null => by simp [sizeV, serVal]
  | .bool true => by simp [sizeV, serVal]
  | .bool false => by simp [sizeV, serVal]
  | .num n => by
    rcases serNat_cons n.natAbs with ⟨c, t, hct, _⟩
    show sizeV (JsonVal.num n) ≤ (serInt n).length
    rw [serInt]
    by_cases hn : n < 0 <;>
      simp [hn, hct, sizeV]
  | .str s => by simp [sizeV, serVal, serStr]
  | .arr .nil => by simp [sizeV, serVal]
  | .arr (.cons v a) => by
    have h1 := sizeV_le v
    have h2 := sizeA_le a
    show 1 + max (sizeV v) (sizeA a) ≤
      ('[' :: (serVal v ++ (serAfterA a ++ [']']))).length
    simp only [List.length_cons, List.length_append, List.length_singleton]
    omega
  | .obj .nil => by simp [sizeV, serVal]
  | .obj (.cons k v o) => by
    have h1 := sizeV_le v
    have h2 := sizeO_le o
    show 1 + max (1 + sizeV v) (sizeO o) ≤
      (lbrace :: (serStr k ++ (':' :: (serVal v ++ (serAfterO o ++ [rbrace]))))).length
    simp only [List.length_cons, List.length_append, List.length_singleton, serStr]
    omega

theorem sizeA_le : ∀ a : JsonArr, sizeA a ≤ (serAfterA a).length + 1
  | .nil => by simp [sizeA, serAfterA]
  | .cons v a => by
    have h1 := sizeV_le v
    have h2 := sizeA_le a
    show 1 + max (sizeV v) (sizeA a) ≤ (',' :: (serVal v ++ serAfterA a)).length + 1
    simp only [List.length_cons, List.length_append]
    omega

theorem sizeO_le : ∀ o : JsonObj, sizeO o ≤ (serAfterO o).length + 1
  | .nil => by simp [sizeO, serAfterO]
  | .cons k v o => by
    have h1 := sizeV_le v
    have h2 := sizeO_le o
    show 1 + max (1 + sizeV v) (sizeO o) ≤
      (',' :: (serStr k ++ (':' :: (serVal v ++ serAfterO o)))).length + 1
    simp only [List.length_cons, List.length_append, serStr]
    omega

end

/-- Round-trip: parsing the serialization of any JSON value recovers the
value exactly (the model of `json.loads(json.dumps(x)) == x`). -/
theorem loads_dumps (v : JsonVal) : loads (dumps v) = .ok v := by
  have hskip : skipWs (serVal v) = serVal v := by
    obtain ⟨c, t, hct, hws, _⟩ := serVal_cons v
    rw [hct]; simp [skipWs, hws]
  have hfuel : sizeV v ≤ (serVal v).length + 1 :=
    le_trans (sizeV_le v) (Nat.le_succ _)
  have hparse := roundV v ((serVal v).length + 1) [] hfuel rfl
  rw [List.append_nil] at hparse
  have hdata : (String.mk (serVal v)).data = serVal v := rfl
  simp only [loads, dumps, hdata, hskip, hparse]
  rfl

example : loads "null" = .ok JsonVal.null := by rfl
example : loads "not json" = .error "Expecting value" := by rfl
example : loads "[true,-12]" =
    .ok (JsonVal.arr (JsonArr.cons (JsonVal.bool true)
      (JsonArr.cons (JsonVal.num (-12)) JsonArr.nil))) := by rfl
example : loads "\x7b\"a\":1\x7d" =
    .ok (JsonVal.obj (JsonObj.cons "a" (JsonVal.num 1) JsonObj.nil)) := by rfl
example : dumps (JsonVal.obj (JsonObj.cons "a" (JsonVal.num 1) JsonObj.nil)) =
    "\x7b\"a\":1\x7d" := by rfl

/-! ## Program model: provider, exceptions, adapter (src/app/llm.py) -/

/-- One chat message; `content` is optional because the provider may
return a message whose content field is null. -/
structure ChatMessage where
  role : String
  content : Option String

structure ChatChoice where
  message : ChatMessage

structure ChatResponse where
  choices : List ChatChoice

/-- The request built by `client.chat.completions.create` in `ask_llm`.
The sampling temperature 0.7 is modelled as the rational 7/10. -/
structure ChatRequest where
  model : String
  messages : List ChatMessage
  temperature : ℚ

/-- The external LLM provider: one outbound call which either returns a
response or raises a transport/provider error (carried as a message). -/
def Provider : Type := ChatRequest → Except String ChatResponse

/-- Model of Python exceptions relevant to this program.
`jsonDecode` is `json.JSONDecodeError`; everything else is untyped from
the point of view of the `except` clauses in the source. -/
inductive PyErr : Type where
  | jsonDecode (msg : String)
  | typeError (msg : String)
  | providerError (msg : String)
  | indexError (msg : String)

/-- Python `str(e)` on a modelled exception. -/
def pyStr : PyErr → String
  | .jsonDecode m => m
  | .typeError m => m
  | .providerError m => m
  | .indexError m => m

/-- The single-turn request built by `ask_llm` (src/app/llm.py lines 16-20):
one user-role message, temperature 0.7. -/
def mkRequest (prompt : String) (model : String) : ChatRequest :=
  { model := model
    messages := [{ role := "user", content := some prompt }]
    temperature := 7 / 10 }

/-- Model of `ask_llm` (src/app/llm.py lines 9-22): send the prompt as one
single-turn request and return `response.choices[0].message.content`.
A provider failure propagates; an empty choice list would raise an
IndexError; a null message content is returned as-is (Python has no
runtime check of the `-> str` annotation). -/
def ask_llm (p : Provider) (prompt : String)
    (model : String := "gpt-4o-mini") : Except PyErr (Option String) :=
  match p (mkRequest prompt model) with
  | .error m => .error (.providerError m)
  | .ok resp =>
    match resp.choices with
    | [] => .error (.indexError "list index out of range")
    | c :: _ => .ok c.message.content

/-- Message of `json.loads(None)` in CPython. -/
def jsonLoadsNoneMsg : String :=
  "the JSON object must be str, bytes or bytearray, not NoneType"

/-- Model of `json.loads` applied to the value returned by the adapter: a null
completion raises TypeError; a string is parsed, and a parse failure
raises `json.JSONDecodeError`. -/
def pyLoads : Option String → Except PyErr JsonVal
  | none => .error (.typeError jsonLoadsNoneMsg)
  | some s =>
    match loads s with
    | .ok v => .ok v
    | .error m => .error (.jsonDecode m)

/-! ## Prompt templates (the f-strings of src/app/llm.py) -/

/-- Python `str(x)` for the optional `max_length` argument. -/
def pyShowOptInt : Option Int → String
  | none => "None"
  | some i => toString i

def summarizePrompt (text : String) (max_length : Option Int) : String :=
  "Summarize the following text in approximately " ++ pyShowOptInt max_length ++
    " words or less.\n    \nText:\n" ++ text ++
    "\n\nProvide only the summary, nothing else."

def extractPrompt (text schema_description : String) : String :=
  "Extract the following information from the text and return it as valid JSON.\n\nSchema requirements:\n"
    ++ schema_description ++ "\n\nText:\n" ++ text ++
    "\n\nReturn ONLY valid JSON, no additional text."

def answerPrompt (context question : String) : String :=
  "Based on the following context, answer the question.\n\nContext:\n" ++
    context ++ "\n\nQuestion:\n" ++ question ++
    "\n\nProvide a clear and concise answer."

def generatePrompt (description data_type : String) : String :=
  "Generate a realistic example of a " ++ data_type ++
    " with the following characteristics:\n" ++ description ++
    "\n\nReturn as valid JSON with appropriate fields for a " ++ data_type ++
    ". Include all relevant fields.\nReturn ONLY valid JSON, no additional text."

/-! ## Task functions (src/app/llm.py) -/

/-- The dict returned by `summarize_text`. -/
structure SummarizeResult where
  summary : String
  original_length : Nat
  summary_length : Nat

/-- The dict returned by `extract_json`. -/
structure ExtractResult where
  data : JsonVal
  success : Bool
  error : Option String

/-- The dict returned by `answer_question` (the answer is whatever the
adapter returned, possibly null). -/
structure QAResult where
  answer : Option String
  confidence : String

/-- The dict returned by `generate_structured_data`; on success the
Python dict has no `error` key, modelled as `none`. -/
structure GenResult where
  data : JsonVal
  schema_used : String
  error : Option String

/-- The empty JSON object `{}` used by the fallback branches. -/
def emptyObj : JsonVal := JsonVal.obj JsonObj.nil

/-- Model of `summarize_text` (src/app/llm.py lines 24-41): prompt, one adapter
call, then a record with post-hoc character counts (`len` in Python;
`len(None)` would raise TypeError while building the dict). -/
def summarize_text (p : Provider) (text : String)
    (max_length : Option Int := some 150)
    (model : String := "gpt-4o-mini") : Except PyErr SummarizeResult :=
  match ask_llm p (summarizePrompt text max_length) model with
  | .error e => .error e
  | .ok none => .error (.typeError "object of type NoneType has no len()")
  | .ok (some summary) =>
    .ok { summary := summary
          original_length := text.length
          summary_length := summary.length }

/-- The `try` block of `extract_json` (src/app/llm.py lines 57-65). -/
def extract_json_body (p : Provider) (text schema_description : String)
    (model : String) : Except PyErr ExtractResult :=
  match ask_llm p (extractPrompt text schema_description) model with
  | .error e => .error e
  | .ok response =>
    match pyLoads response with
    | .error e => .error e
    | .ok data => .ok { data := data, success := true, error := none }

/-- Model of `extract_json` (src/app/llm.py lines 43-71): the try block above with
`except json.JSONDecodeError` converted into the designed fallback
record; every other exception propagates. -/
def extract_json (p : Provider) (text schema_description : String)
    (model : String := "gpt-4o-mini") : Except PyErr ExtractResult :=
  match extract_json_body p text schema_description model with
  | .error (.jsonDecode m) =>
    .ok { data := emptyObj
          success := false
          error := some ("Failed to parse JSON: " ++ m) }
  | other => other

/-- Model of `answer_question` (src/app/llm.py lines 73-92): the confidence field
is the constant literal "high". -/
def answer_question (p : Provider) (context question : String)
    (model : String := "gpt-4o-mini") : Except PyErr QAResult :=
  match ask_llm p (answerPrompt context question) model with
  | .error e => .error e
  | .ok answer => .ok { answer := answer, confidence := "high" }

/-- The `try` block of `generate_structured_data`
(src/app/llm.py lines 104-110). -/
def generate_structured_data_body (p : Provider)
    (description data_type : String) (model : String) :
    Except PyErr GenResult :=
  match ask_llm p (generatePrompt description data_type) model with
  | .error e => .error e
  | .ok response =>
    match pyLoads response with
    | .error e => .error e
    | .ok data =>
      .ok { data := data, schema_used := data_type, error := none }

/-- Model of `generate_structured_data` (src/app/llm.py lines 94-116). -/
def generate_structured_data (p : Provider)
    (description data_type : String)
    (model : String := "gpt-4o-mini") : Except PyErr GenResult :=
  match generate_structured_data_body p description data_type model with
  | .error (.jsonDecode m) =>
    .ok { data := emptyObj
          schema_used := data_type
          error := some ("Failed to parse JSON: " ++ m) }
  | other => other

/-! ## HTTP schemas and endpoints (src/app/schemas.py, src/app/main.py) -/

structure SummarizationInput where
  text : String
  max_length : Option Int := some 150

structure JSONExtractionInput where
  text : String
  schema_description : String

structure QAInput where
  context : String
  question : String

structure StructuredDataInput where
  description : String
  data_type : String

structure SummarizationOutput where
  summary : String
  original_length : Nat
  summary_length : Nat

structure JSONExtractionOutput where
  data : JsonVal
  success : Bool
  error : Option String

structure QAOutput where
  answer : String
  confidence : Option String

/-- Schema `StructuredDataOutput` (src/app/schemas.py lines 39-41) has no error
field; pydantic silently drops the extra `error` key of the fallback dict. -/
structure StructuredDataOutput where
  data : JsonVal
  schema_used : String

/-- An HTTP response: a 200 with a typed body, or an HTTPException. -/
inductive HttpResp (α : Type) : Type where
  | ok (body : α)
  | err (status : Nat) (detail : String)

/-- Whether a parsed JSON value is an object (pydantic `dict[str, Any]`
validation of the `data` field). -/
def JsonVal.isObj : JsonVal → Bool
  | .obj _ => true
  | _ => false

/-- Modelled pydantic validation-error message for a non-dict data field. -/
def pydanticDictMsg : String := "validation error: data is not a valid dictionary"

/-- Modelled pydantic validation-error message for a null answer field. -/
def pydanticStrMsg : String := "validation error: answer is not a valid string"

/-- The `/summarize` endpoint (src/app/main.py lines 45-57): any exception
from the task becomes HTTP 500 with the operation-specific message. -/
def summarize (p : Provider) (input_data : SummarizationInput) :
    HttpResp SummarizationOutput :=
  match summarize_text p input_data.text input_data.max_length with
  | .ok r =>
    .ok { summary := r.summary
          original_length := r.original_length
          summary_length := r.summary_length }
  | .error e => .err 500 ("Error summarizing text: " ++ pyStr e)

/-- The `/extract-json` endpoint (src/app/main.py lines 60-72). -/
def extract (p : Provider) (input_data : JSONExtractionInput) :
    HttpResp JSONExtractionOutput :=
  match extract_json p input_data.text input_data.schema_description with
  | .ok r =>
    if r.data.isObj then
      .ok { data := r.data, success := r.success, error := r.error }
    else .err 500 ("Error extracting JSON: " ++ pydanticDictMsg)
  | .error e => .err 500 ("Error extracting JSON: " ++ pyStr e)

/-- The `/answer` endpoint (src/app/main.py lines 75-87). -/
def answer (p : Provider) (input_data : QAInput) : HttpResp QAOutput :=
  match answer_question p input_data.context input_data.question with
  | .ok r =>
    match r.answer with
    | some a => .ok { answer := a, confidence := some r.confidence }
    | none => .err 500 ("Error answering question: " ++ pydanticStrMsg)
  | .error e => .err 500 ("Error answering question: " ++ pyStr e)

/-- The `/generate-data` endpoint (src/app/main.py lines 90-102). -/
def generate_data (p : Provider) (input_data : StructuredDataInput) :
    HttpResp StructuredDataOutput :=
  match generate_structured_data p input_data.description input_data.data_type with
  | .ok r =>
    if r.data.isObj then
      .ok { data := r.data, schema_used := r.schema_used }
    else .err 500 ("Error generating data: " ++ pydanticDictMsg)
  | .error e => .err 500 ("Error generating data: " ++ pyStr e)

/-! ## Configuration and startup (src/app/config.py, src/app/llm.py line 7)

The application entry point (`app.main`) imports `app.schemas` and
`app.llm`; importing `app.llm` constructs the module-level OpenAI client
from `os.getenv("OPENAI_API_KEY")`. The `app.config` module is not
imported by the application modules, so its check runs only if config is
itself imported. -/

/-- Python truthiness of `os.getenv` results: `not OPENAI_API_KEY` is
true for an absent variable (None) and for the empty string. -/
def pyFalsyStr : Option String → Bool
  | none => true
  | some s => s = ""

/-- Module body of src/app/config.py (lines 18-20): raise ValueError when
the key is falsy. -/
def configInit (openai_api_key_env : Option String) : Except String Unit :=
  if pyFalsyStr openai_api_key_env then
    .error "OPENAI_API_KEY environment variable is not set"
  else .ok ()

structure OpenAIClient where
  api_key : String

/-- Modelled external collaborator: the openai client constructor raises
(OpenAIError) when it is given no API key and the environment variable is
also absent; any present string (even empty) is accepted. -/
def openAIClientInit (api_key : Option String) : Except String OpenAIClient :=
  match api_key with
  | none =>
    .error "The api_key client option must be set either by passing api_key to the client or by setting the OPENAI_API_KEY environment variable"
  | some k => .ok { api_key := k }

/-- Process startup for the application: importing `app.main` executes
`client = OpenAI(api_key=os.getenv("OPENAI_API_KEY"))` at module level in
src/app/llm.py line 7; if that raises, the process dies before any
request can be served. -/
def appStartup (env_openai_api_key : Option String) :
    Except String OpenAIClient :=
  openAIClientInit env_openai_api_key

/-- Embedding of the duplicate root-level adapter (src/llm.py): a
single-shot call to the responses API with a hard-coded model and no
temperature or message-role structure; kept for reference, the
application imports the adapter in src/app/llm.py. -/
structure ResponsesRequest where
  model : String
  input : String

def ask_llm_root (p : ResponsesRequest → Except String String)
    (prompt : String) : Except String String :=
  p { model := "gpt-4.1-mini", input := prompt }

/-! ## Canonical providers used to state the claims -/

/-- A provider stub that always completes with the text `s`. -/
def constProvider (s : String) : Provider :=
  fun _ =>
    .ok { choices := [{ message := { role := "assistant", content := some s } }] }

/-- A provider stub whose completion message has null content. -/
def noneContentProvider : Provider :=
  fun _ =>
    .ok { choices := [{ message := { role := "assistant", content := none } }] }

/-- A provider that raises a transport-level failure. -/
def failingProvider (msg : String) : Provider := fun _ => .error msg

/-! ## Helper lemmas about the task functions -/

lemma extract_json_const_ok (s text sd model : String) (v : JsonVal)
    (h : loads s = .ok v) :
    extract_json (constProvider s) text sd model =
      .ok { data := v, success := true, error := none } := by
  simp [extract_json, extract_json_body, ask_llm, constProvider, pyLoads, h]

lemma extract_json_const_err (s text sd model em : String)
    (h : loads s = .error em) :
    extract_json (constProvider s) text sd model =
      .ok { data := emptyObj, success := false,
            error := some ("Failed to parse JSON: " ++ em) } := by
  simp [extract_json, extract_json_body, ask_llm, constProvider, pyLoads, h]

lemma gen_const_ok (s desc dt model : String) (v : JsonVal)
    (h : loads s = .ok v) :
    generate_structured_data (constProvider s) desc dt model =
      .ok { data := v, schema_used := dt, error := none } := by
  simp [generate_structured_data, generate_structured_data_body, ask_llm,
    constProvider, pyLoads, h]

lemma gen_const_err (s desc dt model em : String)
    (h : loads s = .error em) :
    generate_structured_data (constProvider s) desc dt model =
      .ok { data := emptyObj, schema_used := dt,
            error := some ("Failed to parse JSON: " ++ em) } := by
  simp [generate_structured_data, generate_structured_data_body, ask_llm,
    constProvider, pyLoads, h]

/-- Function `extract_json` can never let a `json.JSONDecodeError` escape: the
`except` clause converts exactly that constructor into the fallback. -/
lemma extract_json_no_jsonDecode (p : Provider) (text sd model m : String) :
    extract_json p text sd model ≠ .error (.jsonDecode m) := by
  intro h
  unfold extract_json at h
  cases hbody : extract_json_body p text sd model with
  | error e2 =>
    rw [hbody] at h
    cases e2 with
    | jsonDecode m2 =>
      have h2 : Except.ok
            (ExtractResult.mk emptyObj false
              (some ("Failed to parse JSON: " ++ m2))) =
          (Except.error (PyErr.jsonDecode m) : Except PyErr ExtractResult) := h
      exact Except.noConfusion h2
    | typeError m2 =>
      have h2 : (Except.error (PyErr.typeError m2) :
          Except PyErr ExtractResult) = Except.error (PyErr.jsonDecode m) := h
      injection h2 with h3
      exact PyErr.noConfusion h3
    | providerError m2 =>
      have h2 : (Except.error (PyErr.providerError m2) :
          Except PyErr ExtractResult) = Except.error (PyErr.jsonDecode m) := h
      injection h2 with h3
      exact PyErr.noConfusion h3
    | indexError m2 =>
      have h2 : (Except.error (PyErr.indexError m2) :
          Except PyErr ExtractResult) = Except.error (PyErr.jsonDecode m) := h
      injection h2 with h3
      exact PyErr.noConfusion h3
  | ok rec =>
    rw [hbody] at h
    have h2 : (Except.ok rec : Except PyErr ExtractResult) =
        Except.error (PyErr.jsonDecode m) := h
    exact Except.noConfusion h2

/-! ## Claims -/

/-- C1: for every extract-json and generate-data call in which the
provider returns syntactically invalid JSON text, the task function does
not raise — it returns a record with empty-object data and a populated
error field (success false for extract-json) — and the HTTP layer
receives a 200-shaped body, never a 500. -/
theorem C1_invalid_json_never_500 (s em text sd desc dt : String)
    (hs : loads s = .error em) :
    extract_json (constProvider s) text sd =
      .ok { data := emptyObj, success := false,
            error := some ("Failed to parse JSON: " ++ em) } ∧
    generate_structured_data (constProvider s) desc dt =
      .ok { data := emptyObj, schema_used := dt,
            error := some ("Failed to parse JSON: " ++ em) } ∧
    extract (constProvider s) { text := text, schema_description := sd } =
      .ok { data := emptyObj, success := false,
            error := some ("Failed to parse JSON: " ++ em) } ∧
    generate_data (constProvider s) { description := desc, data_type := dt } =
      .ok { data := emptyObj, schema_used := dt } := by
  have he := extract_json_const_err s text sd "gpt-4o-mini" em hs
  have hg := gen_const_err s desc dt "gpt-4o-mini" em hs
  refine ⟨he, hg, ?_, ?_⟩
  · simp [extract, he, emptyObj, JsonVal.isObj]
  · simp [generate_data, hg, emptyObj, JsonVal.isObj]

theorem C1_witness :
    extract_json (constProvider "not json") "t" "s" =
      .ok { data := emptyObj, success := false,
            error := some "Failed to parse JSON: Expecting value" } ∧
    generate_data (constProvider "not json")
        { description := "d", data_type := "product" } =
      .ok { data := emptyObj, schema_used := "product" } := by
  have h := C1_invalid_json_never_500 "not json" "Expecting value"
    "t" "s" "d" "product" (by rfl)
  exact ⟨h.1, h.2.2.2⟩

/-- C2: for every extract-json or generate-data call in which the
provider returns syntactically valid JSON text, the result indicates
success (success true, error absent) and its data field is exactly the
parsed object; moreover parsing the serialization of any value yields
the value back (round-trip). -/
theorem C2_valid_json_roundtrip (s text sd desc dt : String) :
    (∀ v : JsonVal, loads s = .ok v →
      extract_json (constProvider s) text sd =
        .ok { data := v, success := true, error := none } ∧
      generate_structured_data (constProvider s) desc dt =
        .ok { data := v, schema_used := dt, error := none }) ∧
    (∀ x : JsonVal, loads (dumps x) = .ok x) :=
  ⟨fun v h => ⟨extract_json_const_ok s text sd _ v h,
    gen_const_ok s desc dt _ v h⟩, loads_dumps⟩

theorem C2_witness :
    extract_json (constProvider "\x7b\x7d") "t" "s" =
      .ok { data := emptyObj, success := true, error := none } ∧
    loads (dumps (JsonVal.arr (JsonArr.cons (JsonVal.num (-3)) JsonArr.nil))) =
      .ok (JsonVal.arr (JsonArr.cons (JsonVal.num (-3)) JsonArr.nil)) := by
  have h := C2_valid_json_roundtrip "\x7b\x7d" "t" "s" "d" "p"
  exact ⟨(h.1 emptyObj (by rfl)).1, h.2 _⟩

/-- C3: every summarize call returns a record whose summary_length is the
character count of its own summary string and whose original_length is
the character count of the submitted text; the summary is returned
verbatim for every requested maximum length, so no length bound is
enforced. -/
theorem C3_summarize_lengths (s text : String) (max_length : Option Int)
    (model : String) :
    summarize_text (constProvider s) text max_length model =
      .ok { summary := s, original_length := text.length,
            summary_length := s.length } := rfl

/-- C4: generate-structured-data returns, on successful parse, the record
with the parsed data, the caller's data_type as schema_used and no error;
on parse failure, the record with empty data, the caller's data_type and
the error string "Failed to parse JSON: <parser message>" — the error
field is delivered to the caller in the returned record. -/
theorem C4_generate_record_shapes (s desc dt : String) :
    (∀ v : JsonVal, loads s = .ok v →
      generate_structured_data (constProvider s) desc dt =
        .ok { data := v, schema_used := dt, error := none }) ∧
    (∀ em : String, loads s = .error em →
      generate_structured_data (constProvider s) desc dt =
        .ok { data := emptyObj, schema_used := dt,
              error := some ("Failed to parse JSON: " ++ em) }) :=
  ⟨fun v h => gen_const_ok s desc dt _ v h,
   fun em h => gen_const_err s desc dt _ em h⟩

theorem C4_witness :
    generate_structured_data (constProvider "\x7b\x7d") "d" "product" =
      .ok { data := emptyObj, schema_used := "product", error := none } ∧
    generate_structured_data (constProvider "nope") "d" "product" =
      .ok { data := emptyObj, schema_used := "product",
            error := some "Failed to parse JSON: Expecting value" } :=
  ⟨(C4_generate_record_shapes "\x7b\x7d" "d" "product").1 emptyObj (by rfl),
   (C4_generate_record_shapes "nope" "d" "product").2 "Expecting value" (by rfl)⟩

/-- C5: the adapter sends exactly one single-turn request — one user-role
message at sampling temperature 0.7 — returns only the textual content of
the first completion choice, and defaults the model to the configured
"gpt-4o-mini" when the caller omits it. The result depends only on the
provider's answer to that one request. -/
theorem C5_adapter_contract (p : Provider) (prompt model : String) :
    (mkRequest prompt model).messages =
      [{ role := "user", content := some prompt }] ∧
    (mkRequest prompt model).temperature = 7 / 10 ∧
    ask_llm p prompt = ask_llm p prompt "gpt-4o-mini" ∧
    (∀ p2 : Provider,
      p2 (mkRequest prompt model) = p (mkRequest prompt model) →
      ask_llm p2 prompt model = ask_llm p prompt model) ∧
    (∀ (resp : ChatResponse) (c : ChatChoice) (tl : List ChatChoice),
      p (mkRequest prompt model) = .ok resp → resp.choices = c :: tl →
      ask_llm p prompt model = .ok c.message.content) := by
  refine ⟨rfl, rfl, rfl, ?_, ?_⟩
  · intro p2 h
    simp [ask_llm, h]
  · intro resp c tl h1 h2
    simp [ask_llm, h1, h2]

theorem C5_witness :
    ask_llm (constProvider "x") "hi" "m" = ask_llm (constProvider "x") "hi" "m" ∧
    ask_llm (constProvider "x") "hi" "m" = .ok (some "x") := by
  have h := C5_adapter_contract (constProvider "x") "hi" "m"
  exact ⟨h.2.2.2.1 (constProvider "x") rfl,
    h.2.2.2.2 { choices := [{ message := { role := "assistant", content := some "x" } }] }
      { message := { role := "assistant", content := some "x" } } [] rfl rfl⟩

/-- C6: every answer-question call returns confidence "high" regardless
of inputs and of the model output; in particular with a provider stub
returning "Paris" on the Paris/France example the endpoint result is
answer "Paris", confidence "high". -/
theorem C6_confidence_constant (s context question model : String) :
    answer_question (constProvider s) context question model =
      .ok { answer := some s, confidence := "high" } ∧
    answer (constProvider "Paris")
        { context := "Paris is the capital of France.",
          question := "What is the capital of France?" } =
      .ok { answer := "Paris", confidence := some "high" } :=
  ⟨rfl, rfl⟩

/-- C7: a provider call that raises a transport-level failure makes each
of the four task endpoints respond HTTP 500 with a message carrying that
endpoint's operation name ("summarizing text", "extracting JSON",
"answering question", "generating data"). -/
theorem C7_provider_failure_500 (msg text sd context question desc dt : String)
    (max_length : Option Int) :
    summarize (failingProvider msg) { text := text, max_length := max_length } =
      .err 500 ("Error summarizing text: " ++ msg) ∧
    extract (failingProvider msg) { text := text, schema_description := sd } =
      .err 500 ("Error extracting JSON: " ++ msg) ∧
    answer (failingProvider msg) { context := context, question := question } =
      .err 500 ("Error answering question: " ++ msg) ∧
    generate_data (failingProvider msg) { description := desc, data_type := dt } =
      .err 500 ("Error generating data: " ++ msg) :=
  ⟨rfl, rfl, rfl, rfl⟩

/-- C8: when the provider-credential environment variable is absent the
process fails at startup (the module-level client constructor raises), so
no request is ever served; when it is present, startup succeeds. -/
theorem C8_startup_requires_key :
    appStartup none =
      .error "The api_key client option must be set either by passing api_key to the client or by setting the OPENAI_API_KEY environment variable" ∧
    (∀ k : String, appStartup (some k) = .ok { api_key := k }) :=
  ⟨rfl, fun _ => rfl⟩

/-- C9: invariant of every extract-json result record: the success flag
is true exactly when the error field is null, and a false success flag
comes with empty-object data. -/
theorem C9_extract_result_invariant (p : Provider) (text sd model : String)
    (r : ExtractResult) (h : extract_json p text sd model = .ok r) :
    (r.success = true ↔ r.error = none) ∧
    (r.success = false → r.data = emptyObj) := by
  unfold extract_json at h
  cases hbody : extract_json_body p text sd model with
  | error e =>
    rw [hbody] at h
    cases e with
    | jsonDecode m =>
      have h2 : Except.ok
            (ExtractResult.mk emptyObj false
              (some ("Failed to parse JSON: " ++ m))) =
          (Except.ok r : Except PyErr ExtractResult) := h
      injection h2 with h3
      subst h3
      exact ⟨by simp, fun _ => rfl⟩
    | typeError m =>
      have h2 : (Except.error (PyErr.typeError m) :
          Except PyErr ExtractResult) = Except.ok r := h
      exact Except.noConfusion h2
    | providerError m =>
      have h2 : (Except.error (PyErr.providerError m) :
          Except PyErr ExtractResult) = Except.ok r := h
      exact Except.noConfusion h2
    | indexError m =>
      have h2 : (Except.error (PyErr.indexError m) :
          Except PyErr ExtractResult) = Except.ok r := h
      exact Except.noConfusion h2
  | ok rec =>
    rw [hbody] at h
    have h2 : (Except.ok rec : Except PyErr ExtractResult) = Except.ok r := h
    injection h2 with h3
    subst h3
    unfold extract_json_body at hbody
    cases hask : ask_llm p (extractPrompt text sd) model with
    | error e2 =>
      rw [hask] at hbody
      exact Except.noConfusion hbody
    | ok content =>
      rw [hask] at hbody
      have hbody2 : (match pyLoads content with
          | Except.error e => (Except.error e : Except PyErr ExtractResult)
          | Except.ok data => Except.ok (ExtractResult.mk data true none)) =
          Except.ok rec := hbody
      cases hload : pyLoads content with
      | error e3 =>
        rw [hload] at hbody2
        exact Except.noConfusion hbody2
      | ok v =>
        rw [hload] at hbody2
        have h4 : Except.ok (ExtractResult.mk v true none) =
            (Except.ok rec : Except PyErr ExtractResult) := hbody2
        injection h4 with h5
        subst h5
        exact ⟨by simp, fun hf => Bool.noConfusion hf⟩

theorem C9_witness :
    ((({ data := emptyObj, success := true, error := none } : ExtractResult).success = true ↔
      ({ data := emptyObj, success := true, error := none } : ExtractResult).error = none) ∧
     (({ data := emptyObj, success := true, error := none } : ExtractResult).success = false →
      ({ data := emptyObj, success := true, error := none } : ExtractResult).data = emptyObj)) :=
  C9_extract_result_invariant (constProvider "\x7b\x7d") "t" "s" "gpt-4o-mini"
    { data := emptyObj, success := true, error := none } (by rfl)

/-- C10: only JSON decode errors are converted into the fallback record;
any other exception in the guarded block — such as the TypeError raised
by parsing the null message content the adapter can return — propagates
and surfaces as HTTP 500 instead of the fallback. -/
theorem C10_non_decode_errors_propagate (text sd desc dt : String) :
    extract_json noneContentProvider text sd =
      .error (.typeError jsonLoadsNoneMsg) ∧
    generate_structured_data noneContentProvider desc dt =
      .error (.typeError jsonLoadsNoneMsg) ∧
    extract noneContentProvider { text := text, schema_description := sd } =
      .err 500 ("Error extracting JSON: " ++ jsonLoadsNoneMsg) ∧
    generate_data noneContentProvider { description := desc, data_type := dt } =
      .err 500 ("Error generating data: " ++ jsonLoadsNoneMsg) ∧
    (∀ (p : Provider) (model : String) (e : PyErr),
      extract_json p text sd model = .error e →
      ∀ m : String, e ≠ .jsonDecode m) := by
  refine ⟨rfl, rfl, rfl, rfl, ?_⟩
  intro p model e h m heq
  subst heq
  exact extract_json_no_jsonDecode p text sd model m h

theorem C10_witness :
    PyErr.typeError jsonLoadsNoneMsg ≠ PyErr.jsonDecode "msg" := by
  have h := C10_non_decode_errors_propagate "t" "s" "d" "p"
  exact h.2.2.2.2 noneContentProvider "gpt-4o-mini"
    (PyErr.typeError jsonLoadsNoneMsg) h.1 "msg"

end LLMToolkit
